import Mathlib

/-
Verification of the addressing/envelope subsystem of agent-rs.

The embedding translates src/mqtt.rs and src/serde.rs into Lean. Rust
strings become Lean String, fallible operations (Result<_, Error>) become
Except Err. The failure crate's untyped format_err messages are modelled
by the structured Err inductive below: each constructor records the same
data the Rust error message interpolates. JSON text is modelled by the
Json AST (serde_json's to_string / from_str pair is the bijection between
JSON text and this AST, so byte-level wire content is represented by the
AST it parses to). A Rust payload type T with Serialize + DeserializeOwned
is modelled by a pair of functions enc : T -> String / dec : String ->
Option T, the round-trip law being serde's contract for well-behaved
types.
-/

deriving instance DecidableEq for Except

namespace AgentRs

/-- Modelled from the spec: AccountId (defined in the crate root, which is
not part of the provided sources) is a pair of a label and an audience. -/
structure AccountId where
  label : String
  audience : String
deriving DecidableEq

/-- Modelled from the spec: the canonical string form of an AccountId is
the dot-separated pair label.audience (the Display impl lives in the crate
root, outside the provided sources). -/
def AccountId.display (a : AccountId) : String :=
  a.label ++ "." ++ a.audience

/-- Modelled from the spec: AgentId owns an AccountId by value and adds an
instance label. -/
structure AgentId where
  label : String
  account_id : AccountId
deriving DecidableEq

/-- Modelled from the spec: the canonical string form of an AgentId is
label.account_id, i.e. label.label.audience. -/
def AgentId.display (a : AgentId) : String :=
  a.label ++ "." ++ a.account_id.display

/-- Modelled from the spec: Destination is the closed set of outgoing
addressing intents Broadcast(uri) / Multicast(AccountId) /
Unicast(AgentId), defined in the crate root. -/
inductive Destination where
  | Broadcast (uri : String)
  | Multicast (account : AccountId)
  | Unicast (agent : AgentId)
deriving DecidableEq

/-- Modelled from the spec: Source is the closed set of incoming
addressing intents Broadcast(AgentId, uri) / Multicast /
Unicast(Option AgentId), defined in the crate root. -/
inductive Source where
  | Broadcast (sender : AgentId) (uri : String)
  | Multicast
  | Unicast (sender : Option AgentId)
deriving DecidableEq

/-- Modelled from the spec: SharedGroup wraps a group name string whose
parse and to_string are the identity on the wrapped string. -/
structure SharedGroup where
  label : String
deriving DecidableEq

/-- Structured model of the error values the sources produce. The Rust
code returns failure::Error values built with format_err! / err_msg and
serde::de::Error helpers; each constructor here stands for one of those
error classes and records the data interpolated into the message. -/
inductive Err where
  | IncompatibleDestination (role : String) (dest : Destination)
  | IncompatibleSource (role : String) (src : Source)
  | RoleMismatch (role : String)
  | PayloadDeserializationError
  | MissingField (name : String)
  | DuplicateField (name : String)
  | UnknownField (name : String)
  | UnknownVariant (name : String)
  | InvalidType (name : String)
deriving DecidableEq

/-- AuthnProperties from src/mqtt.rs: wraps an AgentId. -/
structure AuthnProperties where
  agent_id : AgentId
deriving DecidableEq

/-- OutgoingEventProperties from src/mqtt.rs: a static label. -/
structure OutgoingEventProperties where
  label : String
deriving DecidableEq

/-- OutgoingRequestProperties from src/mqtt.rs: method, correlation_data,
response_topic and an optional flattened AuthnProperties, in declaration
order. -/
structure OutgoingRequestProperties where
  method : String
  correlation_data : String
  response_topic : String
  authn : Option AuthnProperties
deriving DecidableEq

/-- OutgoingResponseStatus is http::StatusCode, carried on the wire as its
u16 numeric form; modelled as Nat. -/
abbrev OutgoingResponseStatus : Type := Nat

/-- OutgoingResponseProperties from src/mqtt.rs: a status code, the
correlation data, and a serde-skipped optional response_topic override. -/
structure OutgoingResponseProperties where
  status : Nat
  correlation_data : String
  response_topic : Option String
deriving DecidableEq

/-- DestinationTopic for OutgoingEventProperties (src/mqtt.rs lines
551-565): only Broadcast is legal and resolves to
apps/{me.account_id}/api/v1/{uri}. -/
def OutgoingEventProperties.destination_topic
    (_p : OutgoingEventProperties) (me : AgentId) (dest : Destination) :
    Except Err String :=
  match dest with
  | Destination.Broadcast uri =>
      Except.ok ("apps/" ++ me.account_id.display ++ "/api/v1/" ++ uri)
  | _ => Except.error (Err.IncompatibleDestination "event" dest)

/-- DestinationTopic for OutgoingRequestProperties (src/mqtt.rs lines
567-586): Unicast resolves to agents/{agent}/api/v1/in/{me.account_id},
Multicast to agents/{me}/api/v1/out/{account}, anything else fails. -/
def OutgoingRequestProperties.destination_topic
    (_p : OutgoingRequestProperties) (me : AgentId) (dest : Destination) :
    Except Err String :=
  match dest with
  | Destination.Unicast agent_id =>
      Except.ok ("agents/" ++ agent_id.display ++ "/api/v1/in/" ++ me.account_id.display)
  | Destination.Multicast account_id =>
      Except.ok ("agents/" ++ me.display ++ "/api/v1/out/" ++ account_id.display)
  | _ => Except.error (Err.IncompatibleDestination "request" dest)

/-- DestinationTopic for OutgoingResponseProperties (src/mqtt.rs lines
588-605): an explicit response_topic wins for any destination; otherwise
Unicast resolves like a request's Unicast and anything else fails. -/
def OutgoingResponseProperties.destination_topic
    (p : OutgoingResponseProperties) (me : AgentId) (dest : Destination) :
    Except Err String :=
  match p.response_topic with
  | some val => Except.ok val
  | none =>
      match dest with
      | Destination.Unicast agent_id =>
          Except.ok ("agents/" ++ agent_id.display ++ "/api/v1/in/" ++ me.account_id.display)
      | _ => Except.error (Err.IncompatibleDestination "response" dest)

/-- Modelled from the spec: EventSubscription (crate root) is a marker
type wrapping a Source. -/
structure EventSubscription where
  source : Source

/-- Modelled from the spec: RequestSubscription (crate root) is a marker
type wrapping a Source. -/
structure RequestSubscription where
  source : Source

/-- Modelled from the spec: ResponseSubscription (crate root) is a marker
type wrapping a Source. -/
structure ResponseSubscription where
  source : Source

/-- SubscriptionTopic for EventSubscription (src/mqtt.rs lines 613-627):
only Broadcast(from, uri) is legal, resolving to
apps/{from.account_id}/api/v1/{uri}. -/
def EventSubscription.subscription_topic
    (s : EventSubscription) (_me : AgentId) : Except Err String :=
  match s.source with
  | Source.Broadcast sender uri =>
      Except.ok ("apps/" ++ sender.account_id.display ++ "/api/v1/" ++ uri)
  | _ => Except.error (Err.IncompatibleSource "event" s.source)

/-- SubscriptionTopic for RequestSubscription (src/mqtt.rs lines 629-648):
Multicast, Unicast(Some from) and Unicast(None) are legal. -/
def RequestSubscription.subscription_topic
    (s : RequestSubscription) (me : AgentId) : Except Err String :=
  match s.source with
  | Source.Multicast =>
      Except.ok ("agents/+/api/v1/out/" ++ me.account_id.display)
  | Source.Unicast (some sender) =>
      Except.ok ("agents/" ++ me.display ++ "/api/v1/in/" ++ sender.account_id.display)
  | Source.Unicast none =>
      Except.ok ("agents/" ++ me.display ++ "/api/v1/in/+")
  | _ => Except.error (Err.IncompatibleSource "request" s.source)

/-- SubscriptionTopic for ResponseSubscription (src/mqtt.rs lines
650-668): Unicast(Some from) and Unicast(None) are legal. -/
def ResponseSubscription.subscription_topic
    (s : ResponseSubscription) (me : AgentId) : Except Err String :=
  match s.source with
  | Source.Unicast (some sender) =>
      Except.ok ("agents/" ++ me.display ++ "/api/v1/in/" ++ sender.account_id.display)
  | Source.Unicast none =>
      Except.ok ("agents/" ++ me.display ++ "/api/v1/in/+")
  | _ => Except.error (Err.IncompatibleSource "response" s.source)

/-- SubscriptionTopic trait from src/mqtt.rs, as a type class over the
three subscription marker types. -/
class SubscriptionTopic (S : Type) where
  subscription_topic : S → AgentId → Except Err String

instance : SubscriptionTopic EventSubscription :=
  ⟨EventSubscription.subscription_topic⟩

instance : SubscriptionTopic RequestSubscription :=
  ⟨RequestSubscription.subscription_topic⟩

instance : SubscriptionTopic ResponseSubscription :=
  ⟨ResponseSubscription.subscription_topic⟩

/-- Agent::subscribe from src/mqtt.rs lines 129-145, restricted to the
topic it hands to the transport: the resolved subscription topic, wrapped
as $share/{group}/{topic} when a shared group is supplied. -/
def Agent.subscribeTopic {S : Type} [SubscriptionTopic S]
    (s : S) (me : AgentId) (maybe_group : Option SharedGroup) :
    Except Err String :=
  match SubscriptionTopic.subscription_topic s me with
  | Except.error e => Except.error e
  | Except.ok topic =>
      match maybe_group with
      | some group => Except.ok ("$share/" ++ group.label ++ "/" ++ topic)
      | none => Except.ok topic

/-- IncomingEventProperties from src/mqtt.rs: only the flattened
AuthnProperties. -/
structure IncomingEventProperties where
  authn : AuthnProperties
deriving DecidableEq

/-- IncomingRequestProperties from src/mqtt.rs: method, correlation_data,
response_topic and the flattened AuthnProperties. -/
structure IncomingRequestProperties where
  method : String
  correlation_data : String
  response_topic : String
  authn : AuthnProperties
deriving DecidableEq

/-- IncomingResponseProperties from src/mqtt.rs: correlation_data and the
flattened AuthnProperties. -/
structure IncomingResponseProperties where
  correlation_data : String
  authn : AuthnProperties
deriving DecidableEq

/-- IncomingRequestProperties::to_response (src/mqtt.rs lines 207-212):
builds response properties from the given status, the request's
correlation_data and Some of the request's response_topic. -/
def IncomingRequestProperties.to_response
    (p : IncomingRequestProperties) (status : Nat) :
    OutgoingResponseProperties :=
  ⟨status, p.correlation_data, some p.response_topic⟩

/-- IncomingMessage from src/mqtt.rs: a payload and properties. -/
structure IncomingMessage (T P : Type) where
  payload : T
  properties : P
deriving DecidableEq

/-- OutgoingMessage from src/mqtt.rs: a payload, properties and a
destination. -/
structure OutgoingMessage (T P : Type) where
  payload : T
  properties : P
  destination : Destination
deriving DecidableEq

/-- Type alias IncomingEvent from src/mqtt.rs. -/
abbrev IncomingEvent (T : Type) : Type := IncomingMessage T IncomingEventProperties

/-- Type alias IncomingRequest from src/mqtt.rs. -/
abbrev IncomingRequest (T : Type) : Type := IncomingMessage T IncomingRequestProperties

/-- Type alias IncomingResponse from src/mqtt.rs. -/
abbrev IncomingResponse (T : Type) : Type := IncomingMessage T IncomingResponseProperties

/-- Type alias OutgoingEvent from src/mqtt.rs. -/
abbrev OutgoingEvent (T : Type) : Type := OutgoingMessage T OutgoingEventProperties

/-- Type alias OutgoingRequest from src/mqtt.rs. -/
abbrev OutgoingRequest (T : Type) : Type := OutgoingMessage T OutgoingRequestProperties

/-- Type alias OutgoingResponse from src/mqtt.rs. -/
abbrev OutgoingResponse (T : Type) : Type := OutgoingMessage T OutgoingResponseProperties

/-- IncomingRequest::to_response (src/mqtt.rs lines 277-292): an
OutgoingResponse carrying the given data, response properties synthesized
by IncomingRequestProperties::to_response, and Destination::Unicast of the
requesting agent's id. -/
def IncomingRequest.to_response {T R : Type}
    (req : IncomingRequest T) (data : R) (status : Nat) :
    OutgoingResponse R :=
  ⟨data, IncomingRequestProperties.to_response
    (IncomingMessage.properties req) status,
   Destination.Unicast (IncomingMessage.properties req).authn.agent_id⟩

/-- JSON values, the model of serde_json text (objects keep their field
order and may hold duplicate keys, as JSON text can). -/
inductive Json where
  | str (s : String)
  | num (n : Nat)
  | obj (entries : List (String × Json))

/-- OutgoingEnvelopeProperties from src/mqtt.rs compat module: the
role-tagged union of the three outgoing properties types. -/
inductive OutgoingEnvelopeProperties where
  | Event (p : OutgoingEventProperties)
  | Request (p : OutgoingRequestProperties)
  | Response (p : OutgoingResponseProperties)

/-- OutgoingEnvelope from src/mqtt.rs compat module: the JSON-encoded
payload string, role-tagged properties, and the serde-skipped
destination. -/
structure OutgoingEnvelope where
  payload : String
  properties : OutgoingEnvelopeProperties
  destination : Destination

/-- IncomingEnvelopeProperties from src/mqtt.rs compat module: the
role-tagged union of the three incoming properties types. -/
inductive IncomingEnvelopeProperties where
  | Event (p : IncomingEventProperties)
  | Request (p : IncomingRequestProperties)
  | Response (p : IncomingResponseProperties)
deriving DecidableEq

/-- IncomingEnvelope from src/mqtt.rs compat module: the raw payload
string and the role-tagged properties. -/
structure IncomingEnvelope where
  payload : String
  properties : IncomingEnvelopeProperties
deriving DecidableEq

/-- Wire tag of each incoming properties variant, as produced by serde's
internally tagged representation with lowercase variant names. -/
def IncomingEnvelopeProperties.roleTag : IncomingEnvelopeProperties → String
  | IncomingEnvelopeProperties.Event _ => "event"
  | IncomingEnvelopeProperties.Request _ => "request"
  | IncomingEnvelopeProperties.Response _ => "response"

/-- IncomingEnvelope::payload (src/mqtt.rs lines 706-713): deserialize the
raw payload string with the caller's payload codec; a failed
deserialization surfaces as an error. -/
def IncomingEnvelope.payloadAs {T : Type}
    (e : IncomingEnvelope) (dec : String → Option T) : Except Err T :=
  match dec e.payload with
  | some t => Except.ok t
  | none => Except.error Err.PayloadDeserializationError

/-- compat::into_event (src/mqtt.rs lines 715-724): deserialize the
payload first, then require the Event variant. -/
def into_event {T : Type} (dec : String → Option T)
    (envelope : IncomingEnvelope) : Except Err (IncomingEvent T) :=
  match envelope.payloadAs dec with
  | Except.error e => Except.error e
  | Except.ok payload =>
      match envelope.properties with
      | IncomingEnvelopeProperties.Event props =>
          Except.ok (IncomingMessage.mk payload props)
      | _ => Except.error (Err.RoleMismatch "event")

/-- compat::into_request (src/mqtt.rs lines 726-735): deserialize the
payload first, then require the Request variant. -/
def into_request {T : Type} (dec : String → Option T)
    (envelope : IncomingEnvelope) : Except Err (IncomingRequest T) :=
  match envelope.payloadAs dec with
  | Except.error e => Except.error e
  | Except.ok payload =>
      match envelope.properties with
      | IncomingEnvelopeProperties.Request props =>
          Except.ok (IncomingMessage.mk payload props)
      | _ => Except.error (Err.RoleMismatch "request")

/-- compat::into_response (src/mqtt.rs lines 737-746): deserialize the
payload first, then require the Response variant. -/
def into_response {T : Type} (dec : String → Option T)
    (envelope : IncomingEnvelope) : Except Err (IncomingResponse T) :=
  match envelope.payloadAs dec with
  | Except.error e => Except.error e
  | Except.ok payload =>
      match envelope.properties with
      | IncomingEnvelopeProperties.Response props =>
          Except.ok (IncomingMessage.mk payload props)
      | _ => Except.error (Err.RoleMismatch "response")

/-- IntoEnvelope for OutgoingEvent (src/mqtt.rs lines 453-466): serialize
the payload with the payload codec and tag the properties Event. Payload
serialization is modelled as total, so the Result wrapper of the Rust
signature is dropped. -/
def OutgoingEvent.into_envelope {T : Type}
    (msg : OutgoingEvent T) (enc : T → String) : OutgoingEnvelope :=
  ⟨enc (OutgoingMessage.payload msg),
   OutgoingEnvelopeProperties.Event (OutgoingMessage.properties msg),
   OutgoingMessage.destination msg⟩

/-- IntoEnvelope for OutgoingRequest (src/mqtt.rs lines 468-481). -/
def OutgoingRequest.into_envelope {T : Type}
    (msg : OutgoingRequest T) (enc : T → String) : OutgoingEnvelope :=
  ⟨enc (OutgoingMessage.payload msg),
   OutgoingEnvelopeProperties.Request (OutgoingMessage.properties msg),
   OutgoingMessage.destination msg⟩

/-- IntoEnvelope for OutgoingResponse (src/mqtt.rs lines 483-496). -/
def OutgoingResponse.into_envelope {T : Type}
    (msg : OutgoingResponse T) (enc : T → String) : OutgoingEnvelope :=
  ⟨enc (OutgoingMessage.payload msg),
   OutgoingEnvelopeProperties.Response (OutgoingMessage.properties msg),
   OutgoingMessage.destination msg⟩

/-- Serialize for AuthnProperties (src/serde.rs lines 95-108): exactly the
three flattened scalar fields agent_label, account_label, audience, in
that order. -/
def AuthnProperties.serializeFields (a : AuthnProperties) :
    List (String × Json) :=
  [("agent_label", Json.str a.agent_id.label),
   ("account_label", Json.str a.agent_id.account_id.label),
   ("audience", Json.str a.agent_id.account_id.audience)]

/-- Serde serialization of OutgoingEnvelopeProperties: internally tagged
with tag field type and lowercase variant names, the variant's fields
following in declaration order; a flattened Option AuthnProperties emits
its three fields when Some and nothing when None; the response's
response_topic is serde-skipped and its status serializes as its u16 value
through the HttpStatusCodeRef remote codec (src/mqtt.rs lines 300-363 and
750-757, src/serde.rs lines 9-11). -/
def OutgoingEnvelopeProperties.serializeJson :
    OutgoingEnvelopeProperties → Json
  | OutgoingEnvelopeProperties.Event p =>
      Json.obj [("type", Json.str "event"), ("label", Json.str p.label)]
  | OutgoingEnvelopeProperties.Request p =>
      Json.obj
        ([("type", Json.str "request"),
          ("method", Json.str p.method),
          ("correlation_data", Json.str p.correlation_data),
          ("response_topic", Json.str p.response_topic)] ++
         (match p.authn with
          | some a => a.serializeFields
          | none => []))
  | OutgoingEnvelopeProperties.Response p =>
      Json.obj
        [("type", Json.str "response"),
         ("status", Json.num p.status),
         ("correlation_data", Json.str p.correlation_data)]

/-- Publishable::to_bytes for OutgoingEnvelope (src/mqtt.rs lines
800-802): JSON-serialize the envelope, whose derived Serialize emits the
payload string and the properties object as sibling fields (destination is
serde-skipped). The produced JSON text is represented by its AST. -/
def OutgoingEnvelope.to_bytes (e : OutgoingEnvelope) : Json :=
  Json.obj
    [("payload", Json.str e.payload),
     ("properties", e.properties.serializeJson)]

/-- Map-visitor loop of the hand-written Deserialize for AuthnProperties
(src/serde.rs lines 110-204): walk the fields in order keeping one
Option slot per known field, failing on a duplicate; after the walk,
report the first missing field in the order agent_label, account_label,
audience. When the deserializer is serde's flattened-struct access
(skipUnknown = true) keys outside the declared field list are filtered out
before reaching the visitor; when deserializing directly (skipUnknown =
false) an unexpected key is an unknown-field error. -/
def authnVisitMap (skipUnknown : Bool) :
    List (String × Json) → Option String → Option String → Option String →
    Except Err AuthnProperties
  | [], agent_label?, account_label?, audience? =>
      match agent_label? with
      | none => Except.error (Err.MissingField "agent_label")
      | some agent_label =>
          match account_label? with
          | none => Except.error (Err.MissingField "account_label")
          | some account_label =>
              match audience? with
              | none => Except.error (Err.MissingField "audience")
              | some audience =>
                  Except.ok ⟨⟨agent_label, ⟨account_label, audience⟩⟩⟩
  | (k, v) :: rest, agent_label?, account_label?, audience? =>
      if k = "agent_label" then
        match agent_label? with
        | some _ => Except.error (Err.DuplicateField "agent_label")
        | none =>
            match v with
            | Json.str s => authnVisitMap skipUnknown rest (some s) account_label? audience?
            | _ => Except.error (Err.InvalidType "agent_label")
      else if k = "account_label" then
        match account_label? with
        | some _ => Except.error (Err.DuplicateField "account_label")
        | none =>
            match v with
            | Json.str s => authnVisitMap skipUnknown rest agent_label? (some s) audience?
            | _ => Except.error (Err.InvalidType "account_label")
      else if k = "audience" then
        match audience? with
        | some _ => Except.error (Err.DuplicateField "audience")
        | none =>
            match v with
            | Json.str s => authnVisitMap skipUnknown rest agent_label? account_label? (some s)
            | _ => Except.error (Err.InvalidType "audience")
      else if skipUnknown then
        authnVisitMap skipUnknown rest agent_label? account_label? audience?
      else
        Except.error (Err.UnknownField k)

/-- Deserialize for AuthnProperties applied directly to a JSON value
(src/serde.rs lines 110-204). -/
def AuthnProperties.deserializeJson (j : Json) :
    Except Err AuthnProperties :=
  match j with
  | Json.obj entries => authnVisitMap false entries none none none
  | _ => Except.error (Err.InvalidType "AuthnProperties")

/-- Flattened deserialization of AuthnProperties from the fields left over
by the containing derived struct: serde's flattened-struct access passes
only the declared fields through, so unknown keys are skipped. -/
def AuthnProperties.deserializeFlattened (entries : List (String × Json)) :
    Except Err AuthnProperties :=
  authnVisitMap true entries none none none

/-- Derived Deserialize loop of IncomingRequestProperties (src/mqtt.rs
lines 193-200): capture the declared fields method, correlation_data and
response_topic (duplicates are errors, values must be strings), buffer
every other field for the flattened AuthnProperties, then check the
declared fields in order and hand the buffer to the flattened
deserializer. -/
def incomingRequestVisitMap :
    List (String × Json) → Option String → Option String → Option String →
    List (String × Json) → Except Err IncomingRequestProperties
  | [], method?, correlation_data?, response_topic?, buffer =>
      match method? with
      | none => Except.error (Err.MissingField "method")
      | some method =>
          match correlation_data? with
          | none => Except.error (Err.MissingField "correlation_data")
          | some correlation_data =>
              match response_topic? with
              | none => Except.error (Err.MissingField "response_topic")
              | some response_topic =>
                  match AuthnProperties.deserializeFlattened buffer with
                  | Except.error e => Except.error e
                  | Except.ok authn =>
                      Except.ok ⟨method, correlation_data, response_topic, authn⟩
  | (k, v) :: rest, method?, correlation_data?, response_topic?, buffer =>
      if k = "method" then
        match method? with
        | some _ => Except.error (Err.DuplicateField "method")
        | none =>
            match v with
            | Json.str s => incomingRequestVisitMap rest (some s) correlation_data? response_topic? buffer
            | _ => Except.error (Err.InvalidType "method")
      else if k = "correlation_data" then
        match correlation_data? with
        | some _ => Except.error (Err.DuplicateField "correlation_data")
        | none =>
            match v with
            | Json.str s => incomingRequestVisitMap rest method? (some s) response_topic? buffer
            | _ => Except.error (Err.InvalidType "correlation_data")
      else if k = "response_topic" then
        match response_topic? with
        | some _ => Except.error (Err.DuplicateField "response_topic")
        | none =>
            match v with
            | Json.str s => incomingRequestVisitMap rest method? correlation_data? (some s) buffer
            | _ => Except.error (Err.InvalidType "response_topic")
      else
        incomingRequestVisitMap rest method? correlation_data? response_topic?
          (buffer ++ [(k, v)])

/-- Derived Deserialize loop of IncomingResponseProperties (src/mqtt.rs
lines 227-232): capture correlation_data, buffer the rest for the
flattened AuthnProperties. -/
def incomingResponseVisitMap :
    List (String × Json) → Option String → List (String × Json) →
    Except Err IncomingResponseProperties
  | [], correlation_data?, buffer =>
      match correlation_data? with
      | none => Except.error (Err.MissingField "correlation_data")
      | some correlation_data =>
          match AuthnProperties.deserializeFlattened buffer with
          | Except.error e => Except.error e
          | Except.ok authn => Except.ok ⟨correlation_data, authn⟩
  | (k, v) :: rest, correlation_data?, buffer =>
      if k = "correlation_data" then
        match correlation_data? with
        | some _ => Except.error (Err.DuplicateField "correlation_data")
        | none =>
            match v with
            | Json.str s => incomingResponseVisitMap rest (some s) buffer
            | _ => Except.error (Err.InvalidType "correlation_data")
      else
        incomingResponseVisitMap rest correlation_data? (buffer ++ [(k, v)])

/-- Derived Deserialize of IncomingEventProperties (src/mqtt.rs lines
175-179): no declared fields of its own, everything goes to the flattened
AuthnProperties. -/
def incomingEventVisitMap (entries : List (String × Json)) :
    Except Err IncomingEventProperties :=
  match AuthnProperties.deserializeFlattened entries with
  | Except.error e => Except.error e
  | Except.ok authn => Except.ok ⟨authn⟩

/-- Tag scan of serde's internally tagged enum deserialization: find the
type field (duplicate tag is an error, the tag value must be a string),
returning the tag together with the remaining fields in order. -/
def extractTag :
    List (String × Json) → Option String → List (String × Json) →
    Except Err (String × List (String × Json))
  | [], tag?, acc =>
      match tag? with
      | none => Except.error (Err.MissingField "type")
      | some tag => Except.ok (tag, acc)
  | (k, v) :: rest, tag?, acc =>
      if k = "type" then
        match tag? with
        | some _ => Except.error (Err.DuplicateField "type")
        | none =>
            match v with
            | Json.str s => extractTag rest (some s) acc
            | _ => Except.error (Err.InvalidType "type")
      else
        extractTag rest tag? (acc ++ [(k, v)])

/-- Derived Deserialize of IncomingEnvelopeProperties (src/mqtt.rs lines
686-693): internally tagged by type with lowercase variant names; the tag
selects which properties struct the remaining fields deserialize into. -/
def IncomingEnvelopeProperties.deserializeJson (j : Json) :
    Except Err IncomingEnvelopeProperties :=
  match j with
  | Json.obj entries =>
      (match extractTag entries none [] with
       | Except.error e => Except.error e
       | Except.ok (tag, content) =>
           if tag = "event" then
             match incomingEventVisitMap content with
             | Except.error e => Except.error e
             | Except.ok p => Except.ok (IncomingEnvelopeProperties.Event p)
           else if tag = "request" then
             match incomingRequestVisitMap content none none none [] with
             | Except.error e => Except.error e
             | Except.ok p => Except.ok (IncomingEnvelopeProperties.Request p)
           else if tag = "response" then
             match incomingResponseVisitMap content none [] with
             | Except.error e => Except.error e
             | Except.ok p => Except.ok (IncomingEnvelopeProperties.Response p)
           else Except.error (Err.UnknownVariant tag))
  | _ => Except.error (Err.InvalidType "IncomingEnvelopeProperties")

/-- Derived Deserialize of IncomingEnvelope (src/mqtt.rs lines 695-699):
a struct of payload (a string) and properties, unknown fields ignored
(serde's default), duplicates and missing fields erroring, missing fields
reported in declaration order. -/
def envelopeVisitMap :
    List (String × Json) → Option String → Option IncomingEnvelopeProperties →
    Except Err IncomingEnvelope
  | [], payload?, properties? =>
      match payload? with
      | none => Except.error (Err.MissingField "payload")
      | some payload =>
          match properties? with
          | none => Except.error (Err.MissingField "properties")
          | some properties => Except.ok ⟨payload, properties⟩
  | (k, v) :: rest, payload?, properties? =>
      if k = "payload" then
        match payload? with
        | some _ => Except.error (Err.DuplicateField "payload")
        | none =>
            match v with
            | Json.str s => envelopeVisitMap rest (some s) properties?
            | _ => Except.error (Err.InvalidType "payload")
      else if k = "properties" then
        match properties? with
        | some _ => Except.error (Err.DuplicateField "properties")
        | none =>
            match IncomingEnvelopeProperties.deserializeJson v with
            | Except.error e => Except.error e
            | Except.ok p => envelopeVisitMap rest payload? (some p)
      else
        envelopeVisitMap rest payload? properties?

/-- Deserialization of an IncomingEnvelope from wire JSON (the from_str
call the compat module's callers perform on received bytes). -/
def IncomingEnvelope.deserializeJson (j : Json) :
    Except Err IncomingEnvelope :=
  match j with
  | Json.obj entries => envelopeVisitMap entries none none
  | _ => Except.error (Err.InvalidType "IncomingEnvelope")

/-- Round trip of an outgoing event through the wire: into_envelope,
to_bytes, envelope deserialization, into_event, payload read. -/
def eventRoundTrip {T : Type} (enc : T → String) (dec : String → Option T)
    (msg : OutgoingEvent T) : Except Err T :=
  match IncomingEnvelope.deserializeJson
      (OutgoingEnvelope.to_bytes (OutgoingEvent.into_envelope msg enc)) with
  | Except.error e => Except.error e
  | Except.ok ie =>
      match into_event dec ie with
      | Except.error e => Except.error e
      | Except.ok m => Except.ok (IncomingMessage.payload m)

/-- Round trip of an outgoing request through the wire. -/
def requestRoundTrip {T : Type} (enc : T → String) (dec : String → Option T)
    (msg : OutgoingRequest T) : Except Err T :=
  match IncomingEnvelope.deserializeJson
      (OutgoingEnvelope.to_bytes (OutgoingRequest.into_envelope msg enc)) with
  | Except.error e => Except.error e
  | Except.ok ie =>
      match into_request dec ie with
      | Except.error e => Except.error e
      | Except.ok m => Except.ok (IncomingMessage.payload m)

/-- Round trip of an outgoing response through the wire. -/
def responseRoundTrip {T : Type} (enc : T → String) (dec : String → Option T)
    (msg : OutgoingResponse T) : Except Err T :=
  match IncomingEnvelope.deserializeJson
      (OutgoingEnvelope.to_bytes (OutgoingResponse.into_envelope msg enc)) with
  | Except.error e => Except.error e
  | Except.ok ie =>
      match into_response dec ie with
      | Except.error e => Except.error e
      | Except.ok m => Except.ok (IncomingMessage.payload m)

/-- C1: an outgoing Request resolves Unicast(agent) to
agents/{agent}/api/v1/in/{self.account}, Multicast(account) to
agents/{self.agent}/api/v1/out/{account}, and fails with an
IncompatibleDestination error on every other destination; the Unicast
request from agent web.svc.usr01.svc.example.org to account
usr02.example.org resolves to
agents/web.svc.usr01.svc.example.org/api/v1/in/usr02.example.org. -/
theorem c1_request_destination_topic :
    (∀ (p : OutgoingRequestProperties) (me agent : AgentId),
      OutgoingRequestProperties.destination_topic p me (Destination.Unicast agent) =
        Except.ok ("agents/" ++ agent.display ++ "/api/v1/in/" ++ me.account_id.display)) ∧
    (∀ (p : OutgoingRequestProperties) (me : AgentId) (account : AccountId),
      OutgoingRequestProperties.destination_topic p me (Destination.Multicast account) =
        Except.ok ("agents/" ++ me.display ++ "/api/v1/out/" ++ account.display)) ∧
    (∀ (p : OutgoingRequestProperties) (me : AgentId) (uri : String),
      OutgoingRequestProperties.destination_topic p me (Destination.Broadcast uri) =
        Except.error (Err.IncompatibleDestination "request" (Destination.Broadcast uri))) ∧
    OutgoingRequestProperties.destination_topic ⟨"m", "c", "r", none⟩
      ⟨"web", ⟨"usr02", "example.org"⟩⟩
      (Destination.Unicast ⟨"web", ⟨"svc.usr01", "svc.example.org"⟩⟩) =
      Except.ok "agents/web.svc.usr01.svc.example.org/api/v1/in/usr02.example.org" :=
  ⟨fun _ _ _ => rfl, fun _ _ _ => rfl, fun _ _ _ => rfl, rfl⟩

/-- C2: an outgoing Response with an explicit response_topic resolves to
that string verbatim for every destination; with no explicit topic,
Unicast(agent) resolves to agents/{agent}/api/v1/in/{self.account} and
every other destination fails with an IncompatibleDestination error. -/
theorem c2_response_destination_topic :
    (∀ (st : Nat) (cd s : String) (me : AgentId) (dest : Destination),
      OutgoingResponseProperties.destination_topic ⟨st, cd, some s⟩ me dest =
        Except.ok s) ∧
    (∀ (st : Nat) (cd : String) (me agent : AgentId),
      OutgoingResponseProperties.destination_topic ⟨st, cd, none⟩ me
          (Destination.Unicast agent) =
        Except.ok ("agents/" ++ agent.display ++ "/api/v1/in/" ++ me.account_id.display)) ∧
    (∀ (st : Nat) (cd : String) (me : AgentId) (uri : String),
      OutgoingResponseProperties.destination_topic ⟨st, cd, none⟩ me
          (Destination.Broadcast uri) =
        Except.error (Err.IncompatibleDestination "response" (Destination.Broadcast uri))) ∧
    (∀ (st : Nat) (cd : String) (me : AgentId) (account : AccountId),
      OutgoingResponseProperties.destination_topic ⟨st, cd, none⟩ me
          (Destination.Multicast account) =
        Except.error (Err.IncompatibleDestination "response" (Destination.Multicast account))) :=
  ⟨fun _ _ _ _ _ => rfl, fun _ _ _ _ => rfl, fun _ _ _ _ => rfl, fun _ _ _ _ => rfl⟩

/-- C3: an outgoing Event resolves Broadcast(uri) to
apps/{self.account}/api/v1/{uri} and fails with an IncompatibleDestination
error naming the role and the destination on every other destination; the
Broadcast("rooms/123/events") event from account svc.example.org resolves
to apps/svc.example.org/api/v1/rooms/123/events. -/
theorem c3_event_destination_topic :
    (∀ (p : OutgoingEventProperties) (me : AgentId) (uri : String),
      OutgoingEventProperties.destination_topic p me (Destination.Broadcast uri) =
        Except.ok ("apps/" ++ me.account_id.display ++ "/api/v1/" ++ uri)) ∧
    (∀ (p : OutgoingEventProperties) (me : AgentId) (account : AccountId),
      OutgoingEventProperties.destination_topic p me (Destination.Multicast account) =
        Except.error (Err.IncompatibleDestination "event" (Destination.Multicast account))) ∧
    (∀ (p : OutgoingEventProperties) (me agent : AgentId),
      OutgoingEventProperties.destination_topic p me (Destination.Unicast agent) =
        Except.error (Err.IncompatibleDestination "event" (Destination.Unicast agent))) ∧
    OutgoingEventProperties.destination_topic ⟨"lbl"⟩
      ⟨"web", ⟨"svc", "example.org"⟩⟩ (Destination.Broadcast "rooms/123/events") =
      Except.ok "apps/svc.example.org/api/v1/rooms/123/events" :=
  ⟨fun _ _ _ => rfl, fun _ _ _ => rfl, fun _ _ _ => rfl, rfl⟩

/-- C4: subscription resolution returns exactly the patterns of the table
(Event Broadcast, Request Multicast, Request and Response Unicast with and
without a named sender), fails with an IncompatibleSource error on every
other pairing, and a supplied shared group g wraps the resolved pattern as
$share/{g}/{pattern} before it is handed to the transport. -/
theorem c4_subscription_topics :
    (∀ (me sender : AgentId) (uri : String),
      EventSubscription.subscription_topic ⟨Source.Broadcast sender uri⟩ me =
        Except.ok ("apps/" ++ sender.account_id.display ++ "/api/v1/" ++ uri)) ∧
    (∀ (me : AgentId),
      RequestSubscription.subscription_topic ⟨Source.Multicast⟩ me =
        Except.ok ("agents/+/api/v1/out/" ++ me.account_id.display)) ∧
    (∀ (me sender : AgentId),
      RequestSubscription.subscription_topic ⟨Source.Unicast (some sender)⟩ me =
        Except.ok ("agents/" ++ me.display ++ "/api/v1/in/" ++ sender.account_id.display)) ∧
    (∀ (me : AgentId),
      RequestSubscription.subscription_topic ⟨Source.Unicast none⟩ me =
        Except.ok ("agents/" ++ me.display ++ "/api/v1/in/+")) ∧
    (∀ (me sender : AgentId),
      ResponseSubscription.subscription_topic ⟨Source.Unicast (some sender)⟩ me =
        Except.ok ("agents/" ++ me.display ++ "/api/v1/in/" ++ sender.account_id.display)) ∧
    (∀ (me : AgentId),
      ResponseSubscription.subscription_topic ⟨Source.Unicast none⟩ me =
        Except.ok ("agents/" ++ me.display ++ "/api/v1/in/+")) ∧
    (∀ (me : AgentId),
      EventSubscription.subscription_topic ⟨Source.Multicast⟩ me =
        Except.error (Err.IncompatibleSource "event" Source.Multicast)) ∧
    (∀ (me : AgentId) (o : Option AgentId),
      EventSubscription.subscription_topic ⟨Source.Unicast o⟩ me =
        Except.error (Err.IncompatibleSource "event" (Source.Unicast o))) ∧
    (∀ (me sender : AgentId) (uri : String),
      RequestSubscription.subscription_topic ⟨Source.Broadcast sender uri⟩ me =
        Except.error (Err.IncompatibleSource "request" (Source.Broadcast sender uri))) ∧
    (∀ (me sender : AgentId) (uri : String),
      ResponseSubscription.subscription_topic ⟨Source.Broadcast sender uri⟩ me =
        Except.error (Err.IncompatibleSource "response" (Source.Broadcast sender uri))) ∧
    (∀ (me : AgentId),
      ResponseSubscription.subscription_topic ⟨Source.Multicast⟩ me =
        Except.error (Err.IncompatibleSource "response" Source.Multicast)) ∧
    (∀ (s : EventSubscription) (me : AgentId) (g : SharedGroup),
      Agent.subscribeTopic s me (some g) =
        Except.map (fun t => "$share/" ++ g.label ++ "/" ++ t)
          (EventSubscription.subscription_topic s me)) ∧
    (∀ (s : RequestSubscription) (me : AgentId) (g : SharedGroup),
      Agent.subscribeTopic s me (some g) =
        Except.map (fun t => "$share/" ++ g.label ++ "/" ++ t)
          (RequestSubscription.subscription_topic s me)) ∧
    (∀ (s : ResponseSubscription) (me : AgentId) (g : SharedGroup),
      Agent.subscribeTopic s me (some g) =
        Except.map (fun t => "$share/" ++ g.label ++ "/" ++ t)
          (ResponseSubscription.subscription_topic s me)) :=
  ⟨fun _ _ _ => rfl, fun _ => rfl, fun _ _ => rfl, fun _ => rfl, fun _ _ => rfl,
   fun _ => rfl, fun _ => rfl, fun _ _ => rfl, fun _ _ _ => rfl, fun _ _ _ => rfl,
   fun _ => rfl,
   fun s me g => by
     obtain ⟨src⟩ := s
     rcases src with ⟨sender, uri⟩ | _ | (_ | sender) <;> rfl,
   fun s me g => by
     obtain ⟨src⟩ := s
     rcases src with ⟨sender, uri⟩ | _ | (_ | sender) <;> rfl,
   fun s me g => by
     obtain ⟨src⟩ := s
     rcases src with ⟨sender, uri⟩ | _ | (_ | sender) <;> rfl⟩

/-- C5: IncomingRequest::to_response produces an OutgoingResponse whose
correlation_data equals the request's correlation_data verbatim and whose
destination is Unicast of the requesting agent's id from the request's
authn properties. -/
theorem c5_to_response_correlation_and_destination :
    ∀ (T R : Type) (req : IncomingRequest T) (data : R) (status : Nat),
      (IncomingRequest.to_response req data status).properties.correlation_data =
        (IncomingMessage.properties req).correlation_data ∧
      (IncomingRequest.to_response req data status).destination =
        Destination.Unicast (IncomingMessage.properties req).authn.agent_id :=
  fun _ _ _ _ _ => ⟨rfl, rfl⟩

/-- C10: the OutgoingResponse built by IncomingRequest::to_response always
resolves its publish topic successfully, to exactly the original request's
response_topic, both at the message's own destination and at any
destination, because to_response copies the request's response_topic into
the response properties and an explicit response_topic takes precedence in
topic resolution. -/
theorem c10_response_topic_resolution :
    ∀ (T R : Type) (req : IncomingRequest T) (data : R) (status : Nat) (me : AgentId),
      (∀ dest : Destination,
        OutgoingResponseProperties.destination_topic
            (IncomingRequest.to_response req data status).properties me dest =
          Except.ok (IncomingMessage.properties req).response_topic) ∧
      OutgoingResponseProperties.destination_topic
          (IncomingRequest.to_response req data status).properties me
          (IncomingRequest.to_response req data status).destination =
        Except.ok (IncomingMessage.properties req).response_topic :=
  fun _ _ _ _ _ _ => ⟨fun _ => rfl, rfl⟩

/-- C6 counterexample: the round trip does not hold for every role. An
outgoing Event serializes only its label besides the role tag, while
IncomingEventProperties require the flattened authn fields, so wire
deserialization fails with MissingField "agent_label" and the original
payload 42 is not reproduced, even though the payload codec used here does
round-trip 42. -/
theorem c6_counterexample_event_roundtrip :
    eventRoundTrip (fun _ : Nat => "42")
        (fun s => if s = "42" then some 42 else none)
        ⟨42, ⟨"hello"⟩, Destination.Broadcast "rooms"⟩ =
      Except.error (Err.MissingField "agent_label") ∧
    (fun s => if s = "42" then some 42 else none) ((fun _ : Nat => "42") 42) =
      some 42 ∧
    eventRoundTrip (fun _ : Nat => "42")
        (fun s => if s = "42" then some 42 else none)
        ⟨42, ⟨"hello"⟩, Destination.Broadcast "rooms"⟩ ≠ Except.ok 42 := by
  refine ⟨rfl, rfl, ?_⟩
  decide

/-- C6 amended: with a payload codec satisfying the serde round-trip law,
serializing an outgoing Request whose properties carry authn and reading
it back through the incoming envelope reproduces the original payload;
outgoing Events, outgoing Responses and outgoing Requests without authn
instead fail incoming deserialization with MissingField "agent_label",
because their serialization never emits the flattened authn fields the
incoming properties require. -/
theorem c6_roundtrip_amended :
    (∀ (T : Type) (enc : T → String) (dec : String → Option T),
      (∀ t, dec (enc t) = some t) →
      ∀ (p : T) (m c r : String) (a : AuthnProperties) (dest : Destination),
        requestRoundTrip enc dec ⟨p, ⟨m, c, r, some a⟩, dest⟩ = Except.ok p) ∧
    (∀ (T : Type) (enc : T → String) (dec : String → Option T)
        (p : T) (lbl : String) (dest : Destination),
      eventRoundTrip enc dec ⟨p, ⟨lbl⟩, dest⟩ =
        Except.error (Err.MissingField "agent_label")) ∧
    (∀ (T : Type) (enc : T → String) (dec : String → Option T)
        (p : T) (st : Nat) (c : String) (rt : Option String) (dest : Destination),
      responseRoundTrip enc dec ⟨p, ⟨st, c, rt⟩, dest⟩ =
        Except.error (Err.MissingField "agent_label")) ∧
    (∀ (T : Type) (enc : T → String) (dec : String → Option T)
        (p : T) (m c r : String) (dest : Destination),
      requestRoundTrip enc dec ⟨p, ⟨m, c, r, none⟩, dest⟩ =
        Except.error (Err.MissingField "agent_label")) := by
  refine ⟨?_, fun _ _ _ _ _ _ => rfl, fun _ _ _ _ _ _ _ _ => rfl,
    fun _ _ _ _ _ _ _ _ => rfl⟩
  intro T enc dec h p m c r a dest
  simp [requestRoundTrip, OutgoingRequest.into_envelope, OutgoingEnvelope.to_bytes,
    OutgoingEnvelopeProperties.serializeJson, IncomingEnvelope.deserializeJson,
    envelopeVisitMap, IncomingEnvelopeProperties.deserializeJson, extractTag,
    incomingRequestVisitMap, AuthnProperties.deserializeFlattened, authnVisitMap,
    AuthnProperties.serializeFields, into_request, IncomingEnvelope.payloadAs, h]

/-- C6 witness: the amended round trip applied to a concrete request. -/
theorem c6_roundtrip_witness :
    requestRoundTrip (fun _ : Unit => "u")
        (fun s => if s = "u" then some () else none)
        ⟨(), ⟨"m", "c", "r", some ⟨⟨"a", ⟨"b", "cc"⟩⟩⟩⟩, Destination.Broadcast "x"⟩ =
      Except.ok () :=
  c6_roundtrip_amended.1 Unit (fun _ => "u")
    (fun s => if s = "u" then some () else none)
    (fun _ => rfl) () "m" "c" "r" ⟨⟨"a", ⟨"b", "cc"⟩⟩⟩ (Destination.Broadcast "x")

/-- C7 counterexample: the role conversions do not fail with RoleMismatch
on every tag mismatch. On an envelope tagged event whose payload string
does not deserialize into the caller's type, into_request returns the
payload deserialization error, not RoleMismatch. -/
theorem c7_counterexample_payload_error_precedence :
    (IncomingEnvelope.mk "oops"
        (IncomingEnvelopeProperties.Event ⟨⟨⟨"a", ⟨"b", "c"⟩⟩⟩⟩)).properties.roleTag ≠
      "request" ∧
    into_request (fun _ => (none : Option Nat))
        ⟨"oops", IncomingEnvelopeProperties.Event ⟨⟨⟨"a", ⟨"b", "c"⟩⟩⟩⟩⟩ =
      Except.error Err.PayloadDeserializationError ∧
    into_request (fun _ => (none : Option Nat))
        ⟨"oops", IncomingEnvelopeProperties.Event ⟨⟨⟨"a", ⟨"b", "c"⟩⟩⟩⟩⟩ ≠
      Except.error (Err.RoleMismatch "request") := by
  refine ⟨by decide, rfl, by decide⟩

/-- C7 amended: each role conversion fails with RoleMismatch whenever the
envelope's role tag does not match the requested role and the payload
string deserializes into the caller's type; whenever the payload string
does not deserialize, the conversion fails with the payload
deserialization error (which takes precedence); in particular converting
an envelope tagged event whose payload deserializes with a Request
conversion fails with RoleMismatch. -/
theorem c7_role_mismatch_amended :
    (∀ (T : Type) (dec : String → Option T) (env : IncomingEnvelope) (t : T),
      dec env.payload = some t → env.properties.roleTag ≠ "event" →
      into_event dec env = Except.error (Err.RoleMismatch "event")) ∧
    (∀ (T : Type) (dec : String → Option T) (env : IncomingEnvelope) (t : T),
      dec env.payload = some t → env.properties.roleTag ≠ "request" →
      into_request dec env = Except.error (Err.RoleMismatch "request")) ∧
    (∀ (T : Type) (dec : String → Option T) (env : IncomingEnvelope) (t : T),
      dec env.payload = some t → env.properties.roleTag ≠ "response" →
      into_response dec env = Except.error (Err.RoleMismatch "response")) ∧
    (∀ (T : Type) (dec : String → Option T) (env : IncomingEnvelope),
      dec env.payload = none →
      into_event dec env = Except.error Err.PayloadDeserializationError) ∧
    (∀ (T : Type) (dec : String → Option T) (env : IncomingEnvelope),
      dec env.payload = none →
      into_request dec env = Except.error Err.PayloadDeserializationError) ∧
    (∀ (T : Type) (dec : String → Option T) (env : IncomingEnvelope),
      dec env.payload = none →
      into_response dec env = Except.error Err.PayloadDeserializationError) ∧
    into_request (fun _ => some 0)
        ⟨"1", IncomingEnvelopeProperties.Event ⟨⟨⟨"a", ⟨"b", "c"⟩⟩⟩⟩⟩ =
      Except.error (Err.RoleMismatch "request") := by
  refine ⟨?_, ?_, ?_, ?_, ?_, ?_, rfl⟩
  · intro T dec env t hdec hrole
    obtain ⟨pl, props⟩ := env
    cases props with
    | Event p => exact absurd rfl hrole
    | Request p => simp_all [into_event, IncomingEnvelope.payloadAs]
    | Response p => simp_all [into_event, IncomingEnvelope.payloadAs]
  · intro T dec env t hdec hrole
    obtain ⟨pl, props⟩ := env
    cases props with
    | Event p => simp_all [into_request, IncomingEnvelope.payloadAs]
    | Request p => exact absurd rfl hrole
    | Response p => simp_all [into_request, IncomingEnvelope.payloadAs]
  · intro T dec env t hdec hrole
    obtain ⟨pl, props⟩ := env
    cases props with
    | Event p => simp_all [into_response, IncomingEnvelope.payloadAs]
    | Request p => simp_all [into_response, IncomingEnvelope.payloadAs]
    | Response p => exact absurd rfl hrole
  · intro T dec env hdec
    simp [into_event, IncomingEnvelope.payloadAs, hdec]
  · intro T dec env hdec
    simp [into_request, IncomingEnvelope.payloadAs, hdec]
  · intro T dec env hdec
    simp [into_response, IncomingEnvelope.payloadAs, hdec]

/-- C7 witness: the amended RoleMismatch clause applied to a concrete
envelope tagged request, converted with into_event. -/
theorem c7_role_mismatch_witness :
    into_event (fun s => if s = "p" then some 0 else (none : Option Nat))
        ⟨"p", IncomingEnvelopeProperties.Request ⟨"m", "c", "r", ⟨⟨"a", ⟨"b", "c"⟩⟩⟩⟩⟩ =
      Except.error (Err.RoleMismatch "event") :=
  c7_role_mismatch_amended.1 Nat
    (fun s => if s = "p" then some 0 else none)
    ⟨"p", IncomingEnvelopeProperties.Request ⟨"m", "c", "r", ⟨⟨"a", ⟨"b", "c"⟩⟩⟩⟩⟩
    0 rfl (by decide)

/-- C8: AuthnProperties serializes as exactly the three flattened scalar
fields agent_label, account_label and audience; deserializing those three
fields reconstructs the AgentId (round trip); a missing field fails with
MissingField (in particular MissingField "audience" when only audience is
absent) and a doubled field fails with DuplicateField. -/
theorem c8_authn_codec :
    (∀ (a : AuthnProperties),
      a.serializeFields =
        [("agent_label", Json.str a.agent_id.label),
         ("account_label", Json.str a.agent_id.account_id.label),
         ("audience", Json.str a.agent_id.account_id.audience)] ∧
      AuthnProperties.deserializeJson (Json.obj a.serializeFields) = Except.ok a) ∧
    (∀ al acl : String,
      AuthnProperties.deserializeJson
          (Json.obj [("agent_label", Json.str al), ("account_label", Json.str acl)]) =
        Except.error (Err.MissingField "audience")) ∧
    (∀ al aud : String,
      AuthnProperties.deserializeJson
          (Json.obj [("agent_label", Json.str al), ("audience", Json.str aud)]) =
        Except.error (Err.MissingField "account_label")) ∧
    (∀ acl aud : String,
      AuthnProperties.deserializeJson
          (Json.obj [("account_label", Json.str acl), ("audience", Json.str aud)]) =
        Except.error (Err.MissingField "agent_label")) ∧
    (∀ al : String,
      AuthnProperties.deserializeJson (Json.obj [("agent_label", Json.str al)]) =
        Except.error (Err.MissingField "account_label")) ∧
    (∀ acl : String,
      AuthnProperties.deserializeJson (Json.obj [("account_label", Json.str acl)]) =
        Except.error (Err.MissingField "agent_label")) ∧
    (∀ aud : String,
      AuthnProperties.deserializeJson (Json.obj [("audience", Json.str aud)]) =
        Except.error (Err.MissingField "agent_label")) ∧
    AuthnProperties.deserializeJson (Json.obj []) =
      Except.error (Err.MissingField "agent_label") ∧
    (∀ (a : AuthnProperties) (s : String),
      AuthnProperties.deserializeJson
          (Json.obj (a.serializeFields ++ [("agent_label", Json.str s)])) =
        Except.error (Err.DuplicateField "agent_label")) ∧
    (∀ (a : AuthnProperties) (s : String),
      AuthnProperties.deserializeJson
          (Json.obj (a.serializeFields ++ [("account_label", Json.str s)])) =
        Except.error (Err.DuplicateField "account_label")) ∧
    (∀ (a : AuthnProperties) (s : String),
      AuthnProperties.deserializeJson
          (Json.obj (a.serializeFields ++ [("audience", Json.str s)])) =
        Except.error (Err.DuplicateField "audience")) :=
  ⟨fun _ => ⟨rfl, rfl⟩, fun _ _ => rfl, fun _ _ => rfl, fun _ _ => rfl,
   fun _ => rfl, fun _ => rfl, fun _ => rfl, rfl,
   fun _ _ => rfl, fun _ _ => rfl, fun _ _ => rfl⟩

/-- C9: each role conversion deserializes the payload before inspecting
the role tag, so on an envelope whose tag does not match the requested
role and whose payload string fails to deserialize, the error returned is
the payload deserialization error, not the role mismatch. -/
theorem c9_payload_checked_first :
    (∀ (T : Type) (dec : String → Option T) (env : IncomingEnvelope),
      dec env.payload = none → env.properties.roleTag ≠ "event" →
      into_event dec env = Except.error Err.PayloadDeserializationError) ∧
    (∀ (T : Type) (dec : String → Option T) (env : IncomingEnvelope),
      dec env.payload = none → env.properties.roleTag ≠ "request" →
      into_request dec env = Except.error Err.PayloadDeserializationError) ∧
    (∀ (T : Type) (dec : String → Option T) (env : IncomingEnvelope),
      dec env.payload = none → env.properties.roleTag ≠ "response" →
      into_response dec env = Except.error Err.PayloadDeserializationError) := by
  refine ⟨?_, ?_, ?_⟩
  · intro T dec env hdec _
    simp [into_event, IncomingEnvelope.payloadAs, hdec]
  · intro T dec env hdec _
    simp [into_request, IncomingEnvelope.payloadAs, hdec]
  · intro T dec env hdec _
    simp [into_response, IncomingEnvelope.payloadAs, hdec]

/-- C9 witness: the request clause applied to a concrete envelope tagged
event with an undecodable payload. -/
theorem c9_payload_checked_first_witness :
    into_request (fun _ => (none : Option Nat))
        ⟨"x", IncomingEnvelopeProperties.Event ⟨⟨⟨"a", ⟨"b", "c"⟩⟩⟩⟩⟩ =
      Except.error Err.PayloadDeserializationError :=
  c9_payload_checked_first.2.1 Nat (fun _ => none)
    ⟨"x", IncomingEnvelopeProperties.Event ⟨⟨⟨"a", ⟨"b", "c"⟩⟩⟩⟩⟩
    rfl (by decide)

end AgentRs
